import Mathlib

/-!
Verification of the build/publish orchestration of `publish-extensions`
(`src/scripts/build-extension.js`, `src/scripts/publish-extension.js`,
`src/scripts/upload-artifacts.js` and the driver entry point), via a
shallow embedding of its validation gates, target-matrix expansion,
publish-identity checks, and prerequisite file-system setup.
-/

/-- JavaScript truthiness of an optional string value (`undefined` and the
empty string are falsy, every other string is truthy). -/
def strTruthy : Option String → Bool
  | none => false
  | some s => !(s == "")

/-- A parsed semantic version (major.minor.patch, no prerelease tags),
as compared by the `semver` library on the version strings the scripts use. -/
structure Semver where
  major : Nat
  minor : Nat
  patch : Nat
deriving DecidableEq, Repr

/-- `semver.eq`: version equality. -/
def semverEq (a b : Semver) : Bool := decide (a = b)

/-- `semver.gt`: strict lexicographic order on (major, minor, patch). -/
def semverGt (a b : Semver) : Bool :=
  decide (b.major < a.major) ||
    (decide (a.major = b.major) &&
      (decide (b.minor < a.minor) ||
        (decide (a.minor = b.minor) && decide (b.patch < a.patch))))

/-- Rendering of a version back to its string form. -/
def semverStr (v : Semver) : String :=
  toString v.major ++ "." ++ toString v.minor ++ "." ++ toString v.patch

/-- `String.prototype.split` on a single-character separator, over the
character list (structurally recursive so that concrete instances
evaluate): splitting the empty string yields one empty segment, matching
JavaScript. -/
def splitSegs (sep : Char) : List Char → List (List Char)
  | [] => [[]]
  | c :: rest =>
    match splitSegs sep rest with
    | [] => [[]]
    | seg :: segs => if c = sep then [] :: seg :: segs else (c :: seg) :: segs

/-- `s.split(sep)` for a one-character separator string. -/
def jsSplit (s : String) (sep : Char) : List String :=
  (splitSegs sep s.data).map (fun l => String.mk l)

/-- `String.prototype.toLowerCase` on the ASCII identifiers the scripts
compare. -/
def jsToLowerCase (s : String) : String := String.mk (s.data.map Char.toLower)

/-- `isBuiltIn` from build-extension.js: an extension id whose first
dot-separated segment (`id.split(".")[0]`) is the `vscode` namespace. -/
def isBuiltIn (id : String) : Bool := (jsSplit id '.').headD "" == "vscode"

/-- The settled result of `openGalleryApi.getExtension(dependency)` wrapped in
`Promise.allSettled`: either the promise rejected, or it fulfilled with a
published extension (`some`) or with `undefined` (`none`). -/
inductive LookupResult where
  | rejected
  | fulfilled (value : Option Unit)
deriving DecidableEq, Repr

/-- `Object.keys(extensions).find((key) => key === dependency)` from
build-extension.js: the matching catalogue key, when present. -/
def catalogueFind (keys : List String) (d : String) : Option String :=
  keys.find? (fun k => k == d)

/-- The `continue` condition of the dependency loop in build-extension.js:
`process.env.SKIP_PUBLISH && Object.keys(extensions).find(...)`, both
evaluated by JavaScript truthiness. -/
def depSkipped (skipPublish : Option String) (keys : List String) (d : String) : Bool :=
  strTruthy skipPublish && strTruthy (catalogueFind keys d)

/-- The `dependenciesNotOnOpenVsx` list accumulated by the dependency loop of
build-extension.js: a dependency is pushed exactly when it is not shortcut by
the skip-publish catalogue check and its registry lookup fulfilled with an
empty (`undefined`) value. -/
def missingDeps (skipPublish : Option String) (keys : List String)
    (lookup : String → LookupResult) (deps : List String) : List String :=
  deps.filter (fun d =>
    !(depSkipped skipPublish keys d) &&
      (match lookup d with
        | LookupResult.fulfilled none => true
        | _ => false))

/-- `", "`-joining as performed by `Array.prototype.join(", ")`. -/
def joinComma (l : List String) : String := String.intercalate ", " l

/-- The error message thrown when some non-builtin dependencies are on the
`cannotPublish` list (build-extension.js). -/
def unpublishableMsg (id : String) (deps : List String) : String :=
  id ++ " is dependent on " ++ joinComma deps ++ ", which " ++
    (if deps.length == 1 then "has" else "have") ++
    " to be published to Open VSX first by " ++
    (if deps.length == 1 then "its author because of its license"
     else "their authors because of their licenses") ++ "."

/-- The error message thrown when some non-builtin dependencies are absent
from the Open VSX registry (build-extension.js). -/
def missingDepsMsg (id : String) (deps : List String) : String :=
  id ++ " is dependent on " ++ joinComma deps ++
    ", which " ++ (if deps.length == 1 then "has" else "have") ++
    " to be published to Open VSX first"

/-- The out-of-date error message of the version-freshness gate
(build-extension.js). -/
def outOfDateMsg (ovsxVersion version : Semver) : String :=
  "extensions.json is out-of-date: Open VSX version " ++ semverStr ovsxVersion ++
    " is already greater than specified version " ++ semverStr version

/-- The state of one `buildVersion` run at the point where the produced (or
supplied) artifact's manifests have been read: everything the validation
gates of build-extension.js inspect. -/
structure BuildInput where
  /-- `extension.id`. -/
  extensionId : String
  /-- `publishContext.target` (`undefined` means the universal target). -/
  target : Option String
  /-- `publishContext.ovsxVersion`, the version Open VSX currently knows. -/
  ovsxVersion : Option Semver
  /-- `publishContext.version` after the manifest-resolution assignment
  (XML manifest version, else binary manifest version, else `undefined`). -/
  resolvedVersion : Option Semver
  /-- `process.env.FORCE`. -/
  force : Option String
  /-- `process.env.SKIP_PUBLISH`. -/
  skipPublish : Option String
  /-- `xmlManifest?.PackageManifest?.Metadata[0]?.License?.[0]`. -/
  xmlLicense : Option String
  /-- `manifest.license`. -/
  manifestLicense : Option String
  /-- `packagePath` (`publishContext.repo`, possibly joined with the
  extension's location). -/
  packagePath : Option String
  /-- The value `ovsx.isLicenseOk(packagePath, manifest)` resolves to when
  invoked. -/
  licenseCheckOk : Bool
  /-- `manifest.extensionDependencies`. -/
  extensionDependencies : Option (List String)
  /-- The `cannotPublish` catalogue from lib/reportStat. -/
  cannotPublish : List String
  /-- `Object.keys(extensions)` read from extensions.json. -/
  catalogueKeys : List String
  /-- The settled result of `openGalleryApi.getExtension` per dependency. -/
  registryLookup : String → LookupResult
  /-- `options.extensionFile` at the end of the build-execution phase. -/
  extensionFile : Option String

/-- The outcome of the gate section of `buildVersion`: the version-equality
skip (`return;`), a thrown error (caught by the surrounding `catch`), or a
normal return of the publish options (carrying the final
`options.extensionFile`). -/
inductive BuildOutcome where
  | skipped
  | thrown (msg : String)
  | success (extensionFile : Option String)
deriving DecidableEq, Repr

/-- Modelled from the spec: the artifact directory constant from
lib/constants (not under src/), "a filesystem location where finalized
artifacts accumulate". -/
def artifactDirectory : String := "/tmp/artifacts/"

/-- `path.join` restricted to the shapes the scripts use: concatenation with
exactly one separating slash. -/
def pathJoin (a b : String) : String :=
  if a.data.getLast? = some '/' then a ++ b else a ++ "/" ++ b

/-- The license gate of build-extension.js: fails when the legacy XML
manifest declares no license, the binary manifest declares no license, and
the external `ovsx.isLicenseOk` check (reachable only when `packagePath` is
truthy) does not confirm one. -/
def licenseGate (i : BuildInput) : Except String Unit :=
  if !(strTruthy i.xmlLicense) && !(strTruthy i.manifestLicense) &&
      !(strTruthy i.packagePath && i.licenseCheckOk) then
    Except.error (i.extensionId ++ ": license is missing")
  else
    Except.ok ()

/-- The dependency-publishability gate of build-extension.js: filter out
builtin (vscode-namespace) dependencies, fail on `cannotPublish` members,
then fail listing every dependency absent from the registry together. -/
def dependencyGate (i : BuildInput) : Except String Unit :=
  match i.extensionDependencies with
  | none => Except.ok ()
  | some deps =>
    let extensionDependenciesNotBuiltin := deps.filter (fun d => !(isBuiltIn d))
    let unpublishableDependencies :=
      extensionDependenciesNotBuiltin.filter (fun d => i.cannotPublish.contains d)
    if unpublishableDependencies.length > 0 then
      Except.error (unpublishableMsg i.extensionId unpublishableDependencies)
    else
      let dependenciesNotOnOpenVsx :=
        missingDeps i.skipPublish i.catalogueKeys i.registryLookup
          extensionDependenciesNotBuiltin
      if dependenciesNotOnOpenVsx.length > 0 then
        Except.error (missingDepsMsg i.extensionId dependenciesNotOnOpenVsx)
      else
        Except.ok ()

/-- The finalization step of build-extension.js: when `options.extensionFile`
is truthy, the artifact is copied into the artifact directory under
`<extensionId>[@<target>].vsix` and `options.extensionFile` is repointed
there. -/
def finalizeExtensionFile (i : BuildInput) : Option String :=
  if strTruthy i.extensionFile then
    some (pathJoin artifactDirectory
      (i.extensionId ++ (match i.target with
        | some t => "@" ++ t
        | none => "") ++ ".vsix"))
  else
    i.extensionFile

/-- The gates of `buildVersion` that run after the version-freshness gate:
license gate, dependency gate, then finalization. -/
def buildVersionAfterVersionGate (i : BuildInput) : BuildOutcome :=
  match licenseGate i with
  | Except.error m => BuildOutcome.thrown m
  | Except.ok _ =>
    match dependencyGate i with
    | Except.error m => BuildOutcome.thrown m
    | Except.ok _ => BuildOutcome.success (finalizeExtensionFile i)

/-- The whole validation-gate section of `buildVersion`
(build-extension.js): version resolution check, version-freshness gate
(with the FORCE override), license gate, dependency gate, finalization. -/
def buildVersionGates (i : BuildInput) : BuildOutcome :=
  match i.resolvedVersion with
  | none => BuildOutcome.thrown (i.extensionId ++ ": version is not resolved")
  | some version =>
    match i.ovsxVersion with
    | some ovsxVersion =>
      if semverGt ovsxVersion version then
        BuildOutcome.thrown (outOfDateMsg ovsxVersion version)
      else if semverEq ovsxVersion version && !(i.force == some "true") then
        BuildOutcome.skipped
      else
        buildVersionAfterVersionGate i
    | none => buildVersionAfterVersionGate i

/-- The error-string marker tested by the `catch` block of `buildVersion`. -/
def alreadyPublishedMarker : String := "is already published."

/-- Substring containment, as decided by `String(error).indexOf(pat) !== -1`. -/
def containsSubstr (s pat : String) : Bool :=
  (List.range (s.length + 1)).any (fun k => pat.data.isPrefixOf (s.data.drop k))

/-- `buildVersion` including its `catch` block, as a function of the gate
input and the current `process.exitCode` (`none` = still unset): a thrown
error whose string form mentions the already-published marker is logged and
leaves the exit code unchanged; any other thrown error sets the exit code
to 1; in both cases `buildVersion` returns `undefined` instead of
re-throwing. -/
def buildVersionRun (i : BuildInput) (exitCode : Option Nat) :
    Option (Option String) × Option Nat :=
  match buildVersionGates i with
  | BuildOutcome.skipped => (none, exitCode)
  | BuildOutcome.success f => (some f, exitCode)
  | BuildOutcome.thrown m =>
    if containsSubstr m alreadyPublishedMarker then
      (none, exitCode)
    else
      (none, some 1)

/-- The value of one key of `extension.target`: the literal `true`, or an
object optionally carrying environment-variable overrides. -/
inductive TargetData where
  | flagTrue
  | obj (env : Option (List (String × String)))
deriving DecidableEq, Repr

/-- The part of an extension descriptor that the target-matrix expansion in
the `module.exports` of build-extension.js inspects. -/
structure Extension where
  /-- `extension.id`. -/
  id : String
  /-- `extension.target`: the declared target platforms, in declaration
  order, when present. -/
  target : Option (List (String × TargetData))
deriving DecidableEq, Repr

/-- The part of the publish context that the target-matrix expansion
mutates and reads. -/
structure PublishContext where
  /-- `publishContext.files`: the target-to-downloaded-asset map, when the
  builds come from GitHub Release assets. -/
  files : Option (List (String × String))
  /-- `publishContext.target`. -/
  target : Option String
  /-- `publishContext.file`. -/
  file : Option String
  /-- `publishContext.environmentVariables`. -/
  environmentVariables : Option (List (String × String))
deriving DecidableEq, Repr

/-- The `publishContext.files` loop of `module.exports` in
build-extension.js, with `buildVersion` abstracted as an oracle from the
mutated context to the returned options' `extensionFile` (`none` models a
caught failure returning `undefined`). Returns the list of contexts
`buildVersion` was invoked on and the accumulated `allOptions`. -/
def buildFilesLoop (ext : Extension)
    (buildVersion : PublishContext → Option (Option String))
    (ctx : PublishContext) :
    List (String × String) → List PublishContext × List (Option String)
  | [] => ([], [])
  | tf :: rest =>
    if ext.target.isNone || (ext.target.getD []).any (fun p => p.1 == tf.1) then
      let ctxNext := { ctx with file := some tf.2, target := some tf.1 }
      let (attempts, allOptions) := buildFilesLoop ext buildVersion ctxNext rest
      match buildVersion ctxNext with
      | some opts => (ctxNext :: attempts, opts :: allOptions)
      | none => (ctxNext :: attempts, allOptions)
    else
      buildFilesLoop ext buildVersion ctx rest

/-- The `extension.target` loop of `module.exports` in build-extension.js:
one `buildVersion` invocation per declared target, in declaration order,
propagating a structured target's environment overrides into the context. -/
def buildTargetsLoop (buildVersion : PublishContext → Option (Option String))
    (ctx : PublishContext) :
    List (String × TargetData) → List PublishContext × List (Option String)
  | [] => ([], [])
  | p :: rest =>
    let ctxTarget := { ctx with target := some p.1 }
    let ctxNext :=
      match p.2 with
      | TargetData.flagTrue => ctxTarget
      | TargetData.obj env => { ctxTarget with environmentVariables := env }
    let (attempts, allOptions) := buildTargetsLoop buildVersion ctxNext rest
    match buildVersion ctxNext with
    | some opts => (ctxNext :: attempts, opts :: allOptions)
    | none => (ctxNext :: attempts, allOptions)

/-- The `module.exports` of build-extension.js: expand the target matrix,
invoke `buildVersion` per entry, collect every returned options object, and
return the truthy `extensionFile` paths. The first component records the
contexts `buildVersion` was invoked on (the build attempts). -/
def moduleExportsBuild (ext : Extension) (ctx : PublishContext)
    (buildVersion : PublishContext → Option (Option String)) :
    List PublishContext × List String :=
  let (attempts, allOptions) :=
    match ctx.files with
    | some files => buildFilesLoop ext buildVersion ctx files
    | none =>
      match ext.target with
      | some targets => buildTargetsLoop buildVersion ctx targets
      | none =>
        match buildVersion ctx with
        | some opts => ([ctx], [opts])
        | none => ([ctx], [])
  (attempts, allOptions.filterMap (fun o => if strTruthy o then o else none))

/-- The identity attributes of the legacy XML manifest
(`PackageManifest.Metadata[0].Identity[0]`): `Publisher` and `Id`. -/
structure XmlIdentity where
  publisher : String
  idName : String
deriving DecidableEq, Repr

/-- One artifact handed to the publish gate: its file path and the XML
manifest identity read back from it (`none` when any step of the optional
chain yields `undefined`). -/
structure Artifact where
  file : String
  xmlManifest : Option XmlIdentity
deriving DecidableEq, Repr

/-- The publisher check of publish-extension.js:
`xmlManifest?...Publisher.toLowerCase() != namespace.toLowerCase()` is
false exactly when the manifest chain is defined and the publisher matches
case-insensitively. -/
def artifactPublisherMatches (ns : String) (a : Artifact) : Bool :=
  match a.xmlManifest with
  | some m => jsToLowerCase m.publisher == jsToLowerCase ns
  | none => false

/-- The extension-name check of publish-extension.js:
`xmlManifest?...Id.toLowerCase() != extension.toLowerCase()`. -/
def artifactNameMatches (extName : String) (a : Artifact) : Bool :=
  match a.xmlManifest with
  | some m => jsToLowerCase m.idName == jsToLowerCase extName
  | none => false

/-- Rendering of the optionally-chained manifest field inside the mismatch
log messages (`undefined` when the chain is broken). -/
def foundPublisherStr (a : Artifact) : String :=
  match a.xmlManifest with
  | some m => m.publisher
  | none => "undefined"

/-- Rendering of the manifest `Id` field inside the mismatch log message. -/
def foundNameStr (a : Artifact) : String :=
  match a.xmlManifest with
  | some m => m.idName
  | none => "undefined"

/-- The mismatch error log an artifact produces in publish-extension.js, if
any: the namespace mismatch message when the publisher check fails, else
the extension-name mismatch message when the name check fails, else none. -/
def artifactMismatchLog (ns extName : String) (a : Artifact) : Option String :=
  if !(artifactPublisherMatches ns a) then
    some ("Namespace name mismatch. Expected " ++ ns ++ ", but found " ++
      foundPublisherStr a)
  else if !(artifactNameMatches extName a) then
    some ("Extension name mismatch. Expected " ++ extName ++ ", but found " ++
      foundNameStr a)
  else
    none

/-- The per-artifact loop of publish-extension.js: on a publisher or name
mismatch, log the error and `continue`; otherwise publish the artifact.
Returns the artifacts actually published and the mismatch error logs, in
order. -/
def publishLoop (ns extName : String) :
    List Artifact → List Artifact × List String
  | [] => ([], [])
  | a :: rest =>
    let (published, logs) := publishLoop ns extName rest
    if !(artifactPublisherMatches ns a) then
      (published, ("Namespace name mismatch. Expected " ++ ns ++
        ", but found " ++ foundPublisherStr a) :: logs)
    else if !(artifactNameMatches extName a) then
      (published, ("Extension name mismatch. Expected " ++ extName ++
        ", but found " ++ foundNameStr a) :: logs)
    else
      (a :: published, logs)

/-- The `module.exports` of publish-extension.js: split the extension id
into namespace and name, require a truthy `OVSX_PAT`, then run the
per-artifact identity checks and publish the matching artifacts. -/
def publishExtension (extensionId : String) (ovsxPat : Option String)
    (extensionFiles : List Artifact) :
    Except String (List Artifact × List String) :=
  let ns := (jsSplit extensionId '.').getD 0 ""
  let extName := (jsSplit extensionId '.').getD 1 ""
  if !(strTruthy ovsxPat) then
    Except.error ("The OVSX_PAT environment variable was not provided, which means the extension cannot be published. Provide it or set SKIP_PUBLISH to true to avoid seeing this.")
  else
    Except.ok (publishLoop ns extName extensionFiles)

/-- A flat model of the file-system state `ensureBuildPrerequisites`
touches: the existing directory paths and the existing file paths. -/
structure FileSystem where
  dirs : List String
  files : List String
deriving DecidableEq, Repr

/-- `fs.existsSync`. -/
def existsSync (fs : FileSystem) (p : String) : Bool :=
  fs.dirs.contains p || fs.files.contains p

/-- `try { fs.rmSync(p) } catch {}` from build-extension.js: `rmSync`
without options removes the file at exactly the literal path `p` (no glob
expansion); when `p` names a directory or nothing, it throws, and the catch
swallows the error leaving the file system unchanged. -/
def rmSyncCaught (fs : FileSystem) (p : String) : FileSystem :=
  if fs.files.contains p then { fs with files := fs.files.erase p } else fs

/-- The file-system effect of `ensureBuildPrerequisites` in
build-extension.js: when the artifact directory exists, attempt to remove
the single literal path `artifactDirectory + "*"` (errors swallowed);
otherwise create the directory. -/
def ensureBuildPrerequisites (artifactDir : String) (fs : FileSystem) :
    FileSystem :=
  if existsSync fs artifactDir then
    rmSyncCaught fs (artifactDir ++ "*")
  else
    { fs with dirs := artifactDir :: fs.dirs }

/-- The environment switches the driver entry point initializes. -/
structure DriverEnv where
  skipPublish : Option String
  force : Option String
deriving DecidableEq, Repr

/-- The driver entry point's initialization
(`process.env.SKIP_PUBLISH ??= "true"; process.env.FORCE ??= "true"`):
each variable is set to "true" exactly when it was unset. -/
def driverInit (e : DriverEnv) : DriverEnv :=
  { skipPublish := some (e.skipPublish.getD "true"),
    force := some (e.force.getD "true") }

theorem semverGt_of_eq_false {a b : Semver} (h : semverEq a b = true) :
    semverGt a b = false := by
  have hab : a = b := by simpa [semverEq] using h
  subst hab
  simp [semverGt]

/-- C1: when the context carries a registry (Open VSX) version semver-equal
to the resolved artifact version, `buildVersion` returns no result (skip,
no artifact path recorded, exit code untouched) unless the FORCE
environment variable is exactly "true", in which case the build proceeds
through the remaining gates. -/
theorem spec_C1_version_equality_skip_unless_force (i : BuildInput)
    (ov v : Semver) (h1 : i.ovsxVersion = some ov)
    (h2 : i.resolvedVersion = some v) (h3 : semverEq ov v = true) :
    (i.force ≠ some "true" →
      buildVersionGates i = BuildOutcome.skipped ∧
      ∀ ec, buildVersionRun i ec = (none, ec)) ∧
    (i.force = some "true" →
      buildVersionGates i = buildVersionAfterVersionGate i) := by
  have hgt := semverGt_of_eq_false h3
  constructor
  · intro hf
    have hskip : buildVersionGates i = BuildOutcome.skipped := by
      simp [buildVersionGates, h1, h2, hgt, h3, hf]
    refine ⟨hskip, fun ec => ?_⟩
    simp [buildVersionRun, hskip]
  · intro hf
    simp [buildVersionGates, h1, h2, hgt, h3, hf]

/-- A concrete skipped build: equal versions, FORCE unset. -/
def c1SkipInput : BuildInput :=
  { extensionId := "foo.bar", target := none,
    ovsxVersion := some ⟨1, 2, 3⟩, resolvedVersion := some ⟨1, 2, 3⟩,
    force := none, skipPublish := none,
    xmlLicense := none, manifestLicense := some "MIT",
    packagePath := none, licenseCheckOk := false,
    extensionDependencies := none, cannotPublish := [],
    catalogueKeys := [], registryLookup := fun _ => LookupResult.rejected,
    extensionFile := some "/tmp/repository/extension.vsix" }

/-- A concrete forced build: equal versions, FORCE = "true", all later
gates passing. -/
def c1ForceInput : BuildInput :=
  { c1SkipInput with force := some "true" }

theorem spec_C1_witness :
    (buildVersionGates c1SkipInput = BuildOutcome.skipped ∧
      buildVersionRun c1SkipInput none = (none, none)) ∧
    buildVersionGates c1ForceInput =
      BuildOutcome.success (some "/tmp/artifacts/foo.bar.vsix") := by
  have h1 := spec_C1_version_equality_skip_unless_force c1SkipInput
    ⟨1, 2, 3⟩ ⟨1, 2, 3⟩ rfl rfl (by decide)
  have h2 := spec_C1_version_equality_skip_unless_force c1ForceInput
    ⟨1, 2, 3⟩ ⟨1, 2, 3⟩ rfl rfl (by decide)
  have hskip := h1.1 (by decide)
  refine ⟨⟨hskip.1, hskip.2 none⟩, (h2.2 rfl).trans ?_⟩
  decide

/-- C2: when the context carries a registry version semver-strictly-greater
than the resolved artifact version, the build fails with the out-of-date
configuration error, with no condition on the force flag. -/
theorem spec_C2_stale_registry_version_fails (i : BuildInput)
    (ov v : Semver) (h1 : i.ovsxVersion = some ov)
    (h2 : i.resolvedVersion = some v) (h3 : semverGt ov v = true) :
    buildVersionGates i = BuildOutcome.thrown (outOfDateMsg ov v) := by
  simp [buildVersionGates, h1, h2, h3]

/-- A forced build whose registry version is strictly newer than the
resolved one. -/
def c2Input : BuildInput :=
  { c1SkipInput with
    force := some "true",
    ovsxVersion := some ⟨2, 0, 0⟩, resolvedVersion := some ⟨1, 9, 9⟩ }

theorem spec_C2_witness :
    buildVersionGates c2Input =
      BuildOutcome.thrown
        ("extensions.json is out-of-date: Open VSX version 2.0.0 is already greater than specified version 1.9.9") := by
  have h := spec_C2_stale_registry_version_fails c2Input
    ⟨2, 0, 0⟩ ⟨1, 9, 9⟩ rfl rfl (by decide)
  exact h.trans (by decide)

/-- C5: the license gate fails with the "license is missing" error exactly
when the legacy XML manifest, the binary manifest and the external
license-check utility (which can only confirm when a package path is
available) all fail to confirm a license; any one confirmation makes the
gate pass. -/
theorem spec_C5_license_gate (i : BuildInput) :
    (strTruthy i.xmlLicense = false → strTruthy i.manifestLicense = false →
      (strTruthy i.packagePath && i.licenseCheckOk) = false →
      buildVersionAfterVersionGate i =
        BuildOutcome.thrown (i.extensionId ++ ": license is missing")) ∧
    ((strTruthy i.xmlLicense = true ∨ strTruthy i.manifestLicense = true ∨
        (strTruthy i.packagePath && i.licenseCheckOk) = true) →
      licenseGate i = Except.ok ()) := by
  constructor
  · intro hx hm hp
    have hlic : licenseGate i =
        Except.error (i.extensionId ++ ": license is missing") := by
      simp [licenseGate, hx, hm, hp]
    simp [buildVersionAfterVersionGate, hlic]
  · intro h
    rcases h with h | h | h <;> simp [licenseGate, h]

/-- A build whose artifact has no license anywhere. -/
def c5Input : BuildInput :=
  { c1SkipInput with ovsxVersion := none, manifestLicense := none }

theorem spec_C5_witness :
    buildVersionAfterVersionGate c5Input =
      BuildOutcome.thrown "foo.bar: license is missing" ∧
    licenseGate { c5Input with manifestLicense := some "MIT" } =
      Except.ok () := by
  refine ⟨(spec_C5_license_gate c5Input).1 rfl rfl rfl, ?_⟩
  exact (spec_C5_license_gate _).2 (Or.inr (Or.inl (by decide)))

/-- C7: a thrown build error whose string form mentions "is already
published." leaves the process exit code unchanged; any other thrown error
sets the exit code to 1; in both cases `buildVersion` returns no result
instead of re-throwing, so the surrounding loops continue. -/
theorem spec_C7_catch_policy (i : BuildInput) (ec : Option Nat) (m : String)
    (h : buildVersionGates i = BuildOutcome.thrown m) :
    (containsSubstr m alreadyPublishedMarker = true →
      buildVersionRun i ec = (none, ec)) ∧
    (containsSubstr m alreadyPublishedMarker = false →
      buildVersionRun i ec = (none, some 1)) := by
  unfold buildVersionRun
  rw [h]
  constructor <;> intro hc <;> simp [hc]

/-- A build that throws an error mentioning the benign marker (through the
extension id, as with errors propagated from the registry client). -/
def c7BenignInput : BuildInput :=
  { c1SkipInput with
    extensionId := "x is already published.",
    resolvedVersion := none }

/-- A build that throws an ordinary (non-benign) error. -/
def c7FailInput : BuildInput :=
  { c1SkipInput with resolvedVersion := none }

theorem spec_C7_witness :
    buildVersionRun c7BenignInput none = (none, none) ∧
    buildVersionRun c7FailInput (some 0) = (none, some 1) := by
  constructor
  · exact (spec_C7_catch_policy c7BenignInput none
      "x is already published.: version is not resolved" rfl).1 (by decide)
  · exact (spec_C7_catch_policy c7FailInput (some 0)
      "foo.bar: version is not resolved" rfl).2 (by decide)

/-- C9: a dependency enters the missing list only when its registry lookup
fulfilled with an empty value; a rejected lookup (e.g. a network error)
never puts the dependency on the missing list. -/
theorem spec_C9_rejected_lookup_not_missing (skipPublish : Option String)
    (keys : List String) (lookup : String → LookupResult)
    (deps : List String) (d : String) :
    (d ∈ missingDeps skipPublish keys lookup deps →
      lookup d = LookupResult.fulfilled none) ∧
    (lookup d = LookupResult.rejected →
      d ∉ missingDeps skipPublish keys lookup deps) := by
  have key : d ∈ missingDeps skipPublish keys lookup deps →
      lookup d = LookupResult.fulfilled none := by
    intro hm
    rcases List.mem_filter.mp hm with ⟨-, hp⟩
    simp only [Bool.and_eq_true] at hp
    rcases hp with ⟨-, hl⟩
    cases hd : lookup d with
    | rejected => rw [hd] at hl; simp at hl
    | fulfilled val =>
      cases val with
      | none => rfl
      | some u => rw [hd] at hl; simp at hl
  refine ⟨key, fun hr hm => ?_⟩
  rw [key hm] at hr
  exact LookupResult.noConfusion hr

theorem spec_C9_witness :
    "a.b" ∉ missingDeps none []
      (fun _ => LookupResult.rejected) ["a.b", "c.d"] :=
  (spec_C9_rejected_lookup_not_missing none []
    (fun _ => LookupResult.rejected) ["a.b", "c.d"] "a.b").2 rfl

/-- C4: with no unpublishable (cannotPublish) dependencies among the
non-builtin ones, a nonempty missing list makes the dependency gate fail
with one error naming every absent dependency together. -/
theorem spec_C4_missing_dependencies_reported_together (i : BuildInput)
    (deps : List String) (h1 : i.extensionDependencies = some deps)
    (h2 : (deps.filter (fun d => !(isBuiltIn d))).filter
      (fun d => i.cannotPublish.contains d) = [])
    (h3 : missingDeps i.skipPublish i.catalogueKeys i.registryLookup
      (deps.filter (fun d => !(isBuiltIn d))) ≠ []) :
    dependencyGate i =
      Except.error (missingDepsMsg i.extensionId
        (missingDeps i.skipPublish i.catalogueKeys i.registryLookup
          (deps.filter (fun d => !(isBuiltIn d))))) := by
  have hm : 0 < (missingDeps i.skipPublish i.catalogueKeys i.registryLookup
      (deps.filter (fun d => !(isBuiltIn d)))).length :=
    List.length_pos.mpr h3
  simp only [dependencyGate, h1]
  rw [h2]
  rw [if_neg (by simp), if_pos hm]

/-- A build with two non-builtin dependencies missing from the registry
(and one builtin one, excluded). -/
def c4Input : BuildInput :=
  { c1SkipInput with
    extensionDependencies := some ["a.x", "vscode.z", "b.y"],
    registryLookup := fun _ => LookupResult.fulfilled none }

theorem spec_C4_witness :
    dependencyGate c4Input =
      Except.error
        "foo.bar is dependent on a.x, b.y, which have to be published to Open VSX first" := by
  have h := spec_C4_missing_dependencies_reported_together c4Input
    ["a.x", "vscode.z", "b.y"] rfl (by decide) (by decide)
  exact h.trans (congrArg Except.error (by decide))

theorem buildTargetsLoop_attempts
    (buildVersion : PublishContext → Option (Option String))
    (ctx : PublishContext) (targets : List (String × TargetData)) :
    ((buildTargetsLoop buildVersion ctx targets).1).map (fun a => a.target) =
      targets.map (fun p => some p.1) := by
  induction targets generalizing ctx with
  | nil => rfl
  | cons p rest ih =>
    unfold buildTargetsLoop
    cases hp : p.2 <;>
      simp only [] <;>
      cases buildVersion _ <;>
      simp [ih]

/-- C3: with no pre-built-file map in the context, an extension with no
declared target set gets exactly one build attempt, on the context's
(universal) target, and an extension declaring targets gets exactly one
build attempt per declared target in declaration order — for every possible
per-attempt outcome, so a failed attempt never suppresses the later ones. -/
theorem spec_C3_target_matrix_expansion (ext : Extension)
    (ctx : PublishContext)
    (buildVersion : PublishContext → Option (Option String))
    (hf : ctx.files = none) (hct : ctx.target = none) :
    (ext.target = none →
      ((moduleExportsBuild ext ctx buildVersion).1).map (fun a => a.target) =
        [none] ∧
      (moduleExportsBuild ext ctx buildVersion).1 = [ctx]) ∧
    (∀ targets, ext.target = some targets →
      ((moduleExportsBuild ext ctx buildVersion).1).map (fun a => a.target) =
        targets.map (fun p => some p.1)) := by
  constructor
  · intro ht
    unfold moduleExportsBuild
    rw [hf, ht]
    cases buildVersion ctx <;> simp [hct]
  · intro targets ht
    unfold moduleExportsBuild
    rw [hf, ht]
    simpa using buildTargetsLoop_attempts buildVersion ctx targets

/-- An extension declaring two targets. -/
def c3TwoTargets : Extension :=
  { id := "foo.bar",
    target := some [("linux-x64", TargetData.flagTrue),
      ("win32-x64", TargetData.obj none)] }

/-- An extension with no declared targets. -/
def c3Universal : Extension := { id := "foo.bar", target := none }

/-- An initial publish context with no pre-built-file map. -/
def c3Ctx : PublishContext :=
  { files := none, target := none, file := none,
    environmentVariables := none }

theorem spec_C3_witness :
    ((moduleExportsBuild c3Universal c3Ctx (fun _ => none)).1).map
        (fun a => a.target) = [none] ∧
    ((moduleExportsBuild c3TwoTargets c3Ctx (fun _ => none)).1).map
        (fun a => a.target) = [some "linux-x64", some "win32-x64"] := by
  constructor
  · exact ((spec_C3_target_matrix_expansion c3Universal c3Ctx
      (fun _ => none) rfl rfl).1 rfl).1
  · exact ((spec_C3_target_matrix_expansion c3TwoTargets c3Ctx
      (fun _ => none) rfl rfl).2 _ rfl).trans (by decide)

theorem publishLoop_filter (ns extName : String) (files : List Artifact) :
    publishLoop ns extName files =
      (files.filter (fun a => artifactPublisherMatches ns a &&
          artifactNameMatches extName a),
        files.filterMap (artifactMismatchLog ns extName)) := by
  induction files with
  | nil => rfl
  | cons a rest ih =>
    unfold publishLoop
    rw [ih]
    by_cases h1 : artifactPublisherMatches ns a = true
    · by_cases h2 : artifactNameMatches extName a = true
      · simp [artifactMismatchLog, h1, h2, List.filter_cons,
          List.filterMap_cons]
      · simp [artifactMismatchLog, h1, h2, List.filter_cons,
          List.filterMap_cons,
          Bool.eq_false_iff.mpr h2]
    · simp [artifactMismatchLog, h1, List.filter_cons, List.filterMap_cons,
        Bool.eq_false_iff.mpr h1]

/-- C6: with a truthy OVSX_PAT, the publish gate publishes exactly those
artifacts whose XML-manifest publisher and name case-insensitively match
the requested id's namespace and name, and emits one mismatch error log per
non-matching artifact; a mismatching artifact is skipped while the
remaining artifacts are still processed. -/
theorem spec_C6_identity_mismatch_skips_artifact (extensionId : String)
    (ovsxPat : Option String) (extensionFiles : List Artifact)
    (h : strTruthy ovsxPat = true) :
    publishExtension extensionId ovsxPat extensionFiles =
      Except.ok
        (extensionFiles.filter (fun a =>
          artifactPublisherMatches ((jsSplit extensionId '.').getD 0 "") a &&
            artifactNameMatches ((jsSplit extensionId '.').getD 1 "") a),
         extensionFiles.filterMap
          (artifactMismatchLog ((jsSplit extensionId '.').getD 0 "")
            ((jsSplit extensionId '.').getD 1 ""))) := by
  unfold publishExtension
  simp [h, publishLoop_filter]

/-- A mismatching artifact followed by a matching one. -/
def c6Files : List Artifact :=
  [{ file := "/tmp/artifacts/evil.vsix",
     xmlManifest := some { publisher := "evil", idName := "bar" } },
   { file := "/tmp/artifacts/foo.bar.vsix",
     xmlManifest := some { publisher := "foo", idName := "Bar" } }]

theorem spec_C6_witness :
    publishExtension "Foo.bar" (some "token") c6Files =
      Except.ok
        ([{ file := "/tmp/artifacts/foo.bar.vsix",
            xmlManifest := some { publisher := "foo", idName := "Bar" } }],
         ["Namespace name mismatch. Expected Foo, but found evil"]) := by
  have h := spec_C6_identity_mismatch_skips_artifact "Foo.bar"
    (some "token") c6Files (by decide)
  exact h.trans (congrArg Except.ok (by decide))

/-- C8 (counterexample to the cleanliness claim): when the artifact
directory already exists and holds a file, `ensureBuildPrerequisites`
leaves that file in place — `fs.rmSync` is invoked on the single literal
path `artifactDirectory + "*"` (no glob expansion), which does not exist,
so the swallowed error leaves the file system untouched. -/
theorem spec_C8_leftover_file_survives :
    ensureBuildPrerequisites artifactDirectory
        { dirs := [artifactDirectory],
          files := [artifactDirectory ++ "old.vsix"] } =
      { dirs := [artifactDirectory],
        files := [artifactDirectory ++ "old.vsix"] } ∧
    (ensureBuildPrerequisites artifactDirectory
        { dirs := [artifactDirectory],
          files := [artifactDirectory ++ "old.vsix"] }).files.contains
      (artifactDirectory ++ "old.vsix") = true := by
  constructor <;> decide

/-- C10: the driver entry point turns unset SKIP_PUBLISH and FORCE
variables into "true"; consequently the version-equality skip is bypassed
(the build proceeds past the version gate even on equal versions) and any
dependency found in the extensions.json catalogue is shortcut past the
registry-existence check. -/
theorem spec_C10_driver_defaults (e : DriverEnv)
    (h1 : e.skipPublish = none) (h2 : e.force = none) :
    (driverInit e).skipPublish = some "true" ∧
    (driverInit e).force = some "true" ∧
    (∀ (i : BuildInput) (ov v : Semver), i.force = (driverInit e).force →
      i.ovsxVersion = some ov → i.resolvedVersion = some v →
      semverEq ov v = true →
      buildVersionGates i = buildVersionAfterVersionGate i) ∧
    (∀ (keys : List String) (lookup : String → LookupResult)
      (deps : List String) (d : String),
      strTruthy (catalogueFind keys d) = true →
      d ∉ missingDeps (driverInit e).skipPublish keys lookup deps) := by
  have he : driverInit e = { skipPublish := some "true", force := some "true" } := by
    simp [driverInit, h1, h2]
  refine ⟨by rw [he], by rw [he], ?_, ?_⟩
  · intro i ov v hforce hov hv heq
    rw [he] at hforce
    have hgt := semverGt_of_eq_false heq
    simp [buildVersionGates, hov, hv, hgt, heq, hforce]
  · intro keys lookup deps d hfound hm
    rcases List.mem_filter.mp hm with ⟨-, hp⟩
    rw [he] at hp
    rw [Bool.and_eq_true] at hp
    rcases hp with ⟨hp1, -⟩
    rw [Bool.not_eq_true'] at hp1
    rw [show depSkipped (some "true") keys d =
        strTruthy (catalogueFind keys d) from by
      simp [depSkipped, strTruthy]] at hp1
    rw [hfound] at hp1
    exact Bool.noConfusion hp1

theorem spec_C10_witness :
    (driverInit { skipPublish := none, force := none }).skipPublish =
      some "true" ∧
    (driverInit { skipPublish := none, force := none }).force = some "true" ∧
    "a.b" ∉ missingDeps
      (driverInit { skipPublish := none, force := none }).skipPublish
      ["a.b"] (fun _ => LookupResult.fulfilled none) ["a.b"] := by
  have h := spec_C10_driver_defaults { skipPublish := none, force := none }
    rfl rfl
  exact ⟨h.1, h.2.1, h.2.2.2 ["a.b"] (fun _ => LookupResult.fulfilled none)
    ["a.b"] "a.b" (by decide)⟩
